import Mathlib

/-!
Shallow embedding of the Dig Dug clone's core mechanics (types.h, grid.c,
player.c, the enemy module) and proofs about them.

Conventions of the embedding:
* C `int` fields become `Int`; C `bool` becomes `Bool`.
* The 15×20 tile array becomes a total function `Int → Int → TileType`;
  `grid_get_tile` masks out-of-bounds reads with `TileType.empty` and
  `grid_set_tile` is the identity on out-of-bounds writes, exactly as the
  C functions guard their indices.
* In-place mutation becomes explicit state passing: a C function that
  mutates a `Player *` / `Enemy *` and the grid returns the new values
  together with its C return value.
* `rand()` becomes an explicit stream of naturals (`List Nat`) consumed
  one value per C `rand()` call; an exhausted stream yields 0.
-/

namespace DigDug

/-- `TileType` from types.h. -/
inductive TileType where
  | empty
  | dirt
  | tunnel
  | rock
deriving DecidableEq

/-- `Direction` from player.h: `DIR_UP, DIR_DOWN, DIR_LEFT, DIR_RIGHT`. -/
inductive Direction where
  | up
  | down
  | left
  | right
deriving DecidableEq

/-- `EnemyType` from enemy.h. -/
inductive EnemyType where
  | pooka
  | fygar
deriving DecidableEq

/-- `GRID_WIDTH` from types.h. -/
def GRID_WIDTH : Int := 20

/-- `GRID_HEIGHT` from types.h. -/
def GRID_HEIGHT : Int := 15

/-- The tile array `TileType grid[GRID_HEIGHT][GRID_WIDTH]`, as a total
function; only in-bounds cells are observable through `grid_get_tile`. -/
abbrev Grid := Int → Int → TileType

/-- `Player` struct from player.h. -/
structure Player where
  col : Int
  row : Int
  facing : Direction
  is_alive : Bool
  dirt_dug : Int
  move_slowdown : Int
deriving DecidableEq

/-- `Enemy` struct from enemy.h. -/
structure Enemy where
  col : Int
  row : Int
  type : EnemyType
  facing : Direction
  is_alive : Bool
  move_slowdown : Int
  is_ghosting : Bool
deriving DecidableEq

/-- `grid_init` from grid.c: rows 0 and 1 empty sky, row 2 a tunnel strip at
columns 5..14 and dirt elsewhere, a single rock at (row 5, col 10), dirt
everywhere else. -/
def grid_init : Grid := fun row col =>
  if row < 2 then TileType.empty
  else if row = 2 then
    (if 5 ≤ col ∧ col ≤ 14 then TileType.tunnel else TileType.dirt)
  else if row = 5 ∧ col = 10 then TileType.rock
  else TileType.dirt

/-- `grid_get_tile` from grid.c: out-of-bounds reads return `TILE_EMPTY`. -/
def grid_get_tile (g : Grid) (row col : Int) : TileType :=
  if row < 0 ∨ GRID_HEIGHT ≤ row ∨ col < 0 ∨ GRID_WIDTH ≤ col then
    TileType.empty
  else g row col

/-- `grid_set_tile` from grid.c: out-of-bounds writes are a silent no-op. -/
def grid_set_tile (g : Grid) (row col : Int) (t : TileType) : Grid :=
  if row < 0 ∨ GRID_HEIGHT ≤ row ∨ col < 0 ∨ GRID_WIDTH ≤ col then g
  else fun r c => if r = row ∧ c = col then t else g r c

/-- The `switch (dir)` blocks of player.c / the enemy module: the candidate
cell one step from `(col, row)` in direction `dir`, as `(new_col, new_row)`. -/
def step_pos (col row : Int) (dir : Direction) : Int × Int :=
  match dir with
  | Direction.up => (col, row - 1)
  | Direction.down => (col, row + 1)
  | Direction.left => (col - 1, row)
  | Direction.right => (col + 1, row)

/-- `player_init` from player.c. -/
def player_init (start_col start_row : Int) : Player :=
  { col := start_col, row := start_row, facing := Direction.right,
    is_alive := true, dirt_dug := 0, move_slowdown := 0 }

/-- `can_move_to` from player.c: the player walks through empty space and
tunnels, but not dirt or rocks. -/
def can_move_to : TileType → Bool
  | TileType.empty => true
  | TileType.tunnel => true
  | _ => false

/-- `player_move` from player.c. Returns the C `bool` result together with
the updated player and grid. -/
def player_move (p : Player) (dir : Direction) (g : Grid) :
    Bool × Player × Grid :=
  -- check slowdown - cannot move yet
  if 0 < p.move_slowdown then (false, p, g)
  else
    -- calc new pos based on dir
    let nc := (step_pos p.col p.row dir).1
    let nr := (step_pos p.col p.row dir).2
    if nc < 0 ∨ GRID_WIDTH ≤ nc ∨ nr < 0 ∨ GRID_HEIGHT ≤ nr then (false, p, g)
    else
      let dest0 := grid_get_tile g nr nc
      -- cannot dig upwards
      if dest0 = TileType.dirt ∧ dir = Direction.up then (false, p, g)
      else
        -- remove dirt if there is some
        let just_dug := dest0 == TileType.dirt
        let g1 := if just_dug then grid_set_tile g nr nc TileType.tunnel else g
        let p1 := if just_dug then { p with dirt_dug := p.dirt_dug + 1 } else p
        let dest1 := if just_dug then TileType.tunnel else dest0
        if ¬ can_move_to dest1 then (false, p1, g1) -- blocked by rock
        else
          -- move is valid; slowdown 8 when digging, 3 in tunnels
          (true,
           { p1 with
             col := nc
             row := nr
             facing := dir
             move_slowdown := (if just_dug then 8 else 3) }, g1)

/-- `player_update` from player.c: the per-tick cooldown decrement. -/
def player_update (p : Player) : Player :=
  if 0 < p.move_slowdown then { p with move_slowdown := p.move_slowdown - 1 }
  else p

/-- `enemy_init` from the enemy module. -/
def enemy_init (t : EnemyType) (col row : Int) : Enemy :=
  { col := col, row := row, type := t, facing := Direction.left,
    is_alive := true, move_slowdown := 0, is_ghosting := false }

/-- `enemy_can_walk`: enemies walk through tunnels and empty space and ghost
through dirt; only rock blocks them. -/
def enemy_can_walk : TileType → Bool
  | TileType.empty => true
  | TileType.tunnel => true
  | TileType.dirt => true
  | TileType.rock => false

/-- `get_dir_to` from the enemy module: simple chase heuristic. -/
def get_dir_to (from_col from_row to_col to_row : Int) : Direction :=
  let dx := to_col - from_col
  let dy := to_row - from_row
  -- prioritize horiz move
  if dy.natAbs < dx.natAbs then
    (if 0 < dx then Direction.right else Direction.left)
  else
    (if 0 < dy then Direction.down else Direction.up)

/-- `enemy_try_move` from the enemy module. Takes the grid read-only (the
function's type shows the enemy never writes a tile) and returns the C
result flag with the updated enemy. -/
def enemy_try_move (e : Enemy) (dir : Direction) (g : Grid) : Bool × Enemy :=
  let nc := (step_pos e.col e.row dir).1
  let nr := (step_pos e.col e.row dir).2
  -- bounds check
  if nc < 0 ∨ GRID_WIDTH ≤ nc ∨ nr < 0 ∨ GRID_HEIGHT ≤ nr then (false, e)
  else
    let tile := grid_get_tile g nr nc
    -- can't move through rocks
    if tile = TileType.rock then (false, e)
    -- check if walkable
    else if ¬ enemy_can_walk tile then (false, e)
    else
      -- move is valid; ghosting iff dirt; slowdown 20 in dirt, 10 otherwise
      (true,
       { e with
         col := nc
         row := nr
         facing := dir
         is_ghosting := (tile == TileType.dirt)
         move_slowdown := (if tile = TileType.dirt then 20 else 10) })

/-- One `rand()` call on the explicit random stream. -/
def randNext : List Nat → Nat × List Nat
  | [] => (0, [])
  | x :: xs => (x, xs)

/-- The C cast `Direction rand_dir = rand() % 4` for values 0..3. -/
def dirOfNat : Nat → Direction
  | 0 => Direction.up
  | 1 => Direction.down
  | 2 => Direction.left
  | _ => Direction.right

/-- The alternative-direction array of `enemy_update`: all directions in
enum order except the preferred one (always exactly three). -/
def alternatives (preferred : Direction) : List Direction :=
  [Direction.up, Direction.down, Direction.left, Direction.right].filter
    (fun d => d != preferred)

/-- The tail of `enemy_update` after the optional random deviation: try the
preferred direction, and if blocked try one randomly chosen alternative. -/
def enemy_update_rest (e : Enemy) (preferred : Direction) (g : Grid)
    (rng : List Nat) : Enemy × List Nat :=
  let t2 := enemy_try_move e preferred g
  if t2.1 then (t2.2, rng) -- success
  else
    -- Blocked! Try other ways
    let alts := alternatives preferred
    let r3 := randNext rng
    let t3 := enemy_try_move t2.2 (alts.getD (r3.1 % alts.length) Direction.up) g
    (t3.2, r3.2)

/-- `enemy_update` from the enemy module: skip dead enemies, serve the
cooldown, otherwise chase the player with a 30% random deviation and an
alternative direction fallback. -/
def enemy_update (e : Enemy) (p : Player) (g : Grid) (rng : List Nat) :
    Enemy × List Nat :=
  -- dead enemies don't move
  if e.is_alive = false then (e, rng)
  -- update slowdown
  else if 0 < e.move_slowdown then
    ({ e with move_slowdown := e.move_slowdown - 1 }, rng)
  else
    -- AI: chase player
    let preferred := get_dir_to e.col e.row p.col p.row
    let r1 := randNext rng
    -- 30% chance that enemy will move randomly
    if r1.1 % 100 < 30 then
      let r2 := randNext r1.2
      let t1 := enemy_try_move e (dirOfNat (r2.1 % 4)) g
      if t1.1 then (t1.2, r2.2)
      else enemy_update_rest t1.2 preferred g r2.2
    else enemy_update_rest e preferred g r1.2

/-- `enemy_collides_with_player` from the enemy module. -/
def enemy_collides_with_player (e : Enemy) (p : Player) : Bool :=
  e.is_alive && p.is_alive && (e.col == p.col) && (e.row == p.row)

/-- Orthogonal (taxicab) distance between two enemy positions. -/
def moveDist (a b : Enemy) : Nat :=
  (a.col - b.col).natAbs + (a.row - b.row).natAbs

/-- C5: the preferred chase direction: with `dx = player.col − enemy.col` and
`dy = player.row − enemy.row`, if `|dx| > |dy|` the result is `Right` when
`dx > 0` and `Left` otherwise; in all other cases (ties included) the result
is `Down` when `dy > 0` and `Up` otherwise. -/
theorem C5_chase_direction (ecol erow pcol prow : Int) :
    ((prow - erow).natAbs < (pcol - ecol).natAbs →
      get_dir_to ecol erow pcol prow =
        (if 0 < pcol - ecol then Direction.right else Direction.left)) ∧
    ((pcol - ecol).natAbs ≤ (prow - erow).natAbs →
      get_dir_to ecol erow pcol prow =
        (if 0 < prow - erow then Direction.down else Direction.up)) := by
  unfold get_dir_to
  constructor
  · intro h
    rw [if_pos h]
  · intro h
    rw [if_neg (by omega)]

theorem C5_chase_direction_witness :
    ((2 : Int) - 0).natAbs < ((5 : Int) - 0).natAbs ∧
    get_dir_to 0 0 5 2 =
      (if (0 : Int) < 5 - 0 then Direction.right else Direction.left) :=
  ⟨by decide, (C5_chase_direction 0 0 5 2).1 (by decide)⟩

/-- C7: out-of-bounds access is harmless: for any coordinates outside
`[0,H)×[0,W)`, `grid_get_tile` returns `Empty` and `grid_set_tile` is a
silent no-op (the grid is returned unchanged, so every in-bounds cell is
unchanged); neither signals an error. -/
theorem C7_out_of_bounds_access (g : Grid) (row col : Int)
    (h : row < 0 ∨ GRID_HEIGHT ≤ row ∨ col < 0 ∨ GRID_WIDTH ≤ col) :
    grid_get_tile g row col = TileType.empty ∧
    ∀ t : TileType, grid_set_tile g row col t = g := by
  constructor
  · unfold grid_get_tile
    rw [if_pos h]
  · intro t
    unfold grid_set_tile
    rw [if_pos h]

theorem C7_out_of_bounds_access_witness :
    grid_get_tile grid_init (-1) 3 = TileType.empty ∧
    grid_set_tile grid_init (-1) 3 TileType.rock = grid_init :=
  ⟨(C7_out_of_bounds_access grid_init (-1) 3 (by decide)).1,
   (C7_out_of_bounds_access grid_init (-1) 3 (by decide)).2 TileType.rock⟩

/-- C8: `grid_init` produces exactly the reference layout on the 15×20
grid: rows 0 and 1 are `Empty` sky, row 2 is `Tunnel` for columns 5–14 and
`Dirt` elsewhere on that row, the single cell (row 5, column 10) is `Rock`,
and every remaining cell is `Dirt`. -/
theorem C8_grid_init_layout (row col : Int)
    (hr0 : 0 ≤ row) (hr1 : row < GRID_HEIGHT)
    (hc0 : 0 ≤ col) (hc1 : col < GRID_WIDTH) :
    (row < 2 → grid_init row col = TileType.empty) ∧
    (row = 2 → 5 ≤ col → col ≤ 14 → grid_init row col = TileType.tunnel) ∧
    (row = 2 → (col < 5 ∨ 14 < col) → grid_init row col = TileType.dirt) ∧
    (row = 5 → col = 10 → grid_init row col = TileType.rock) ∧
    (2 < row → ¬(row = 5 ∧ col = 10) → grid_init row col = TileType.dirt) := by
  unfold grid_init
  refine ⟨fun h => ?_, fun h2 h5 h14 => ?_, fun h2 hout => ?_,
    fun h5 h10 => ?_, fun h2 hnot => ?_⟩
  · rw [if_pos h]
  · rw [if_neg (by omega), if_pos h2, if_pos ⟨h5, h14⟩]
  · rw [if_neg (by omega), if_pos h2, if_neg (by omega)]
  · rw [if_neg (by omega), if_neg (by omega), if_pos ⟨h5, h10⟩]
  · rw [if_neg (by omega), if_neg (by omega), if_neg hnot]

theorem C8_grid_init_layout_witness :
    grid_init 5 10 = TileType.rock ∧ grid_init 2 7 = TileType.tunnel ∧
    grid_init 0 0 = TileType.empty ∧ grid_init 14 19 = TileType.dirt :=
  ⟨(C8_grid_init_layout 5 10 (by decide) (by decide) (by decide)
      (by decide)).2.2.2.1 rfl rfl,
   (C8_grid_init_layout 2 7 (by decide) (by decide) (by decide)
      (by decide)).2.1 rfl (by decide) (by decide),
   (C8_grid_init_layout 0 0 (by decide) (by decide) (by decide)
      (by decide)).1 (by decide),
   (C8_grid_init_layout 14 19 (by decide) (by decide) (by decide)
      (by decide)).2.2.2.2 (by decide) (by decide)⟩

/-- C9: `enemy_collides_with_player` is true iff both liveness flags are
true and the two grid coordinates coincide; it is a pure predicate (it
takes and returns values, mutating nothing) and is symmetric in which
party's liveness flag is false. -/
theorem C9_collision_predicate (e : Enemy) (p : Player) :
    enemy_collides_with_player e p = true ↔
      (e.is_alive = true ∧ p.is_alive = true ∧
        e.col = p.col ∧ e.row = p.row) := by
  unfold enemy_collides_with_player
  simp [Bool.and_eq_true, beq_iff_eq, and_assoc]

/-- A failed `enemy_try_move` returns the enemy unchanged. -/
theorem enemy_try_move_fail_eq (e : Enemy) (d : Direction) (g : Grid) :
    (enemy_try_move e d g).1 = false → (enemy_try_move e d g).2 = e := by
  simp only [enemy_try_move]
  (repeat' split) <;> intro h <;> first | rfl | simp at h

/-- `enemy_try_move` leaves the enemy in place or moves it one orthogonal
step. -/
theorem enemy_try_move_dist (e : Enemy) (d : Direction) (g : Grid) :
    moveDist (enemy_try_move e d g).2 e ≤ 1 := by
  cases d <;> simp only [enemy_try_move, step_pos] <;> (repeat' split) <;>
    simp [moveDist] <;> omega

/-- C4: a successful enemy try-move onto `Dirt` sets `is_ghosting` and
cooldown 20; onto `Tunnel`/`Empty` it clears `is_ghosting` and sets
cooldown 10; a failed attempt (out of bounds or `Rock`) returns the enemy
unchanged. The enemy never writes the grid: `enemy_try_move` takes the grid
read-only and returns only the flag and the enemy. -/
theorem C4_enemy_try_move (e : Enemy) (dir : Direction) (g : Grid)
    (nc nr : Int) (hstep : step_pos e.col e.row dir = (nc, nr)) :
    ((¬ (nc < 0 ∨ GRID_WIDTH ≤ nc ∨ nr < 0 ∨ GRID_HEIGHT ≤ nr)) →
      (grid_get_tile g nr nc = TileType.dirt →
        enemy_try_move e dir g =
          (true,
           { e with
             col := nc
             row := nr
             facing := dir
             is_ghosting := true
             move_slowdown := 20 })) ∧
      ((grid_get_tile g nr nc = TileType.tunnel ∨
          grid_get_tile g nr nc = TileType.empty) →
        enemy_try_move e dir g =
          (true,
           { e with
             col := nc
             row := nr
             facing := dir
             is_ghosting := false
             move_slowdown := 10 }))) ∧
    (((nc < 0 ∨ GRID_WIDTH ≤ nc ∨ nr < 0 ∨ GRID_HEIGHT ≤ nr) ∨
        grid_get_tile g nr nc = TileType.rock) →
      enemy_try_move e dir g = (false, e)) := by
  constructor
  · intro hb
    constructor
    · intro ht
      simp [enemy_try_move, hstep, hb, ht, enemy_can_walk]
    · rintro (ht | ht) <;> simp [enemy_try_move, hstep, hb, ht, enemy_can_walk]
  · rintro (hb | ht)
    · simp [enemy_try_move, hstep, hb]
    · by_cases hb : (nc < 0 ∨ GRID_WIDTH ≤ nc ∨ nr < 0 ∨ GRID_HEIGHT ≤ nr)
      · simp [enemy_try_move, hstep, hb]
      · simp [enemy_try_move, hstep, hb, ht]

theorem C4_enemy_try_move_witness :
    enemy_try_move (enemy_init EnemyType.pooka 5 3) Direction.right grid_init =
      (true,
       { enemy_init EnemyType.pooka 5 3 with
         col := 6
         row := 3
         facing := Direction.right
         is_ghosting := true
         move_slowdown := 20 }) :=
  ((C4_enemy_try_move (enemy_init EnemyType.pooka 5 3) Direction.right
      grid_init 6 3 rfl).1 (by decide)).1 (by decide)

/-- C2: with cooldown 0 and an in-bounds candidate cell: a non-`Up` move
onto `Dirt` succeeds, converts the cell to `Tunnel`, increments `dirt_dug`
by one, moves the player, sets facing, and sets cooldown 8; a move onto
`Tunnel`/`Empty` succeeds with grid and `dirt_dug` unchanged and cooldown
3. -/
theorem C2_player_move_dig_or_walk (p : Player) (dir : Direction) (g : Grid)
    (nc nr : Int) (hstep : step_pos p.col p.row dir = (nc, nr))
    (hcd : p.move_slowdown = 0)
    (hb : ¬ (nc < 0 ∨ GRID_WIDTH ≤ nc ∨ nr < 0 ∨ GRID_HEIGHT ≤ nr)) :
    (grid_get_tile g nr nc = TileType.dirt → dir ≠ Direction.up →
      player_move p dir g =
        (true,
         { p with
           col := nc
           row := nr
           facing := dir
           dirt_dug := p.dirt_dug + 1
           move_slowdown := 8 },
         grid_set_tile g nr nc TileType.tunnel)) ∧
    ((grid_get_tile g nr nc = TileType.tunnel ∨
        grid_get_tile g nr nc = TileType.empty) →
      player_move p dir g =
        (true,
         { p with
           col := nc
           row := nr
           facing := dir
           move_slowdown := 3 }, g)) := by
  constructor
  · intro ht hup
    simp [player_move, hstep, hcd, hb, ht, hup, can_move_to]
  · rintro (ht | ht) <;> simp [player_move, hstep, hcd, hb, ht, can_move_to]

theorem C2_player_move_dig_or_walk_witness :
    player_move (player_init 10 2) Direction.down grid_init =
      (true,
       { player_init 10 2 with
         col := 10
         row := 3
         facing := Direction.down
         dirt_dug := (player_init 10 2).dirt_dug + 1
         move_slowdown := 8 },
       grid_set_tile grid_init 3 10 TileType.tunnel) :=
  (C2_player_move_dig_or_walk (player_init 10 2) Direction.down grid_init 10 3
      rfl rfl (by decide)).1 (by decide) (by decide)

/-- C3: the player may never dig upward: an `Up` move into a `Dirt` cell
directly above always returns false and changes nothing, while an `Up` move
into an existing `Tunnel` cell succeeds whenever the cell is in bounds and
the cooldown is 0. -/
theorem C3_no_upward_dig (p : Player) (g : Grid) :
    (grid_get_tile g (p.row - 1) p.col = TileType.dirt →
      player_move p Direction.up g = (false, p, g)) ∧
    (p.move_slowdown = 0 →
      ¬ (p.col < 0 ∨ GRID_WIDTH ≤ p.col ∨
          p.row - 1 < 0 ∨ GRID_HEIGHT ≤ p.row - 1) →
      grid_get_tile g (p.row - 1) p.col = TileType.tunnel →
      (player_move p Direction.up g).1 = true) := by
  constructor
  · intro ht
    by_cases hcd : 0 < p.move_slowdown
    · simp [player_move, hcd]
    · have hb : ¬ (p.col < 0 ∨ GRID_WIDTH ≤ p.col ∨
          p.row - 1 < 0 ∨ GRID_HEIGHT ≤ p.row - 1) := by
        intro hcon
        have hempty : grid_get_tile g (p.row - 1) p.col = TileType.empty := by
          unfold grid_get_tile
          rw [if_pos (by tauto)]
        rw [hempty] at ht
        simp at ht
      simp [player_move, step_pos, hcd, hb, ht]
  · intro hcd hb ht
    have hb' : ¬ (p.col < 0 ∨ GRID_WIDTH ≤ p.col ∨
        p.row < 1 ∨ GRID_HEIGHT ≤ p.row - 1) := by
      simp only [GRID_WIDTH, GRID_HEIGHT] at hb ⊢
      omega
    simp [player_move, step_pos, hcd, hb', ht, can_move_to]

theorem C3_no_upward_dig_witness :
    player_move (player_init 0 3) Direction.up grid_init =
      (false, player_init 0 3, grid_init) ∧
    (player_move (player_init 10 3) Direction.up grid_init).1 = true :=
  ⟨(C3_no_upward_dig (player_init 0 3) grid_init).1 (by decide),
   (C3_no_upward_dig (player_init 10 3) grid_init).2 rfl (by decide)
     (by decide)⟩

/-- C6: `player_move` is atomic on failure: whenever it returns false, the
player (every field) and the grid (every cell) are returned exactly as they
were; mutation happens only on successful calls. -/
theorem C6_player_move_atomic_on_failure (p : Player) (dir : Direction)
    (g : Grid) (hfail : (player_move p dir g).1 = false) :
    player_move p dir g = (false, p, g) := by
  by_cases hcd : 0 < p.move_slowdown
  · simp [player_move, hcd]
  · by_cases hb : ((step_pos p.col p.row dir).1 < 0 ∨
        GRID_WIDTH ≤ (step_pos p.col p.row dir).1 ∨
        (step_pos p.col p.row dir).2 < 0 ∨
        GRID_HEIGHT ≤ (step_pos p.col p.row dir).2)
    · simp [player_move, hcd, hb]
    · rcases htile : grid_get_tile g (step_pos p.col p.row dir).2
          (step_pos p.col p.row dir).1 with _ | _ | _ | _
      · simp [player_move, hcd, hb, htile, can_move_to] at hfail
      · by_cases hup : dir = Direction.up
        · subst hup
          simp [player_move, hcd, hb, htile]
        · simp [player_move, hcd, hb, htile, hup, can_move_to] at hfail
      · simp [player_move, hcd, hb, htile, can_move_to] at hfail
      · simp [player_move, hcd, hb, htile, can_move_to]

theorem C6_player_move_atomic_on_failure_witness :
    player_move (player_init 0 2) Direction.left grid_init =
      (false, player_init 0 2, grid_init) :=
  C6_player_move_atomic_on_failure (player_init 0 2) Direction.left grid_init
    (by decide)

/-- C1 counterexample: an alive enemy whose cooldown is exactly 1 at the
start of the tick, placed so that its preferred-direction move would
succeed, only decrements the cooldown to 0 and does not act that tick: its
position is unchanged even though the preferred move (Right, toward the
player) would have succeeded had it been attempted. -/
theorem C1_cooldown_counterexample :
    (enemy_update { enemy_init EnemyType.pooka 5 3 with move_slowdown := 1 }
        (player_init 10 3) grid_init [99]).1 =
      { enemy_init EnemyType.pooka 5 3 with move_slowdown := 0 } ∧
    get_dir_to 5 3 10 3 = Direction.right ∧
    (enemy_try_move { enemy_init EnemyType.pooka 5 3 with move_slowdown := 0 }
        Direction.right grid_init).1 = true := by
  refine ⟨by decide, by decide, by decide⟩

/-- C1 (amended): `enemy_update` stops whenever the cooldown was greater
than 0 at the start of the tick: it decrements the cooldown and returns
without computing a direction or attempting a move, so an alive enemy with
cooldown exactly 1 decrements it to 0 but acts no earlier than the next
tick. -/
theorem C1_cooldown_gates_whole_tick (e : Enemy) (p : Player) (g : Grid)
    (rng : List Nat) (halive : e.is_alive = true)
    (hcd : 0 < e.move_slowdown) :
    enemy_update e p g rng =
      ({ e with move_slowdown := e.move_slowdown - 1 }, rng) := by
  simp [enemy_update, halive, hcd]

theorem C1_cooldown_gates_whole_tick_witness :
    enemy_update { enemy_init EnemyType.pooka 3 3 with move_slowdown := 1 }
        (player_init 10 3) grid_init [] =
      ({ { enemy_init EnemyType.pooka 3 3 with move_slowdown := 1 } with
         move_slowdown :=
           { enemy_init EnemyType.pooka 3 3 with
             move_slowdown := 1 }.move_slowdown - 1 }, []) :=
  C1_cooldown_gates_whole_tick
    { enemy_init EnemyType.pooka 3 3 with move_slowdown := 1 }
    (player_init 10 3) grid_init [] rfl (by decide)

/-- Helper for C10: the tail of `enemy_update` (preferred direction, then
one random alternative) moves the enemy at most one orthogonal cell. -/
theorem enemy_update_rest_dist (e : Enemy) (preferred : Direction) (g : Grid)
    (rng : List Nat) :
    moveDist (enemy_update_rest e preferred g rng).1 e ≤ 1 := by
  simp only [enemy_update_rest]
  split
  · exact enemy_try_move_dist e preferred g
  · rename_i h
    have he : (enemy_try_move e preferred g).2 = e :=
      enemy_try_move_fail_eq e preferred g (by simpa using h)
    dsimp only
    rw [he]
    exact enemy_try_move_dist e _ g

/-- C10: one call to `enemy_update` either leaves the enemy's position
unchanged or moves it to exactly one orthogonally adjacent cell, whatever
values the random source yields: at most one try-move can succeed per
update. -/
theorem C10_enemy_moves_at_most_one_cell (e : Enemy) (p : Player) (g : Grid)
    (rng : List Nat) :
    moveDist (enemy_update e p g rng).1 e ≤ 1 := by
  simp only [enemy_update]
  split
  · simp [moveDist]
  · split
    · simp [moveDist]
    · split
      · split
        · exact enemy_try_move_dist e _ g
        · rename_i h
          have he : (enemy_try_move e (dirOfNat ((randNext (randNext rng).2).1 % 4)) g).2 = e :=
            enemy_try_move_fail_eq e _ g (by simpa using h)
          rw [he]
          exact enemy_update_rest_dist e _ g _
      · exact enemy_update_rest_dist e _ g _

end DigDug
